import Mathlib

/-!
# Verification of the SNOdar RS-232 utilities

Shallow embedding of the core of the `snodar-rs232-utilities` repository:

* the live-health bitflag decoder (`src/snodar_live_health.py`),
* the 128-byte snolog binary packet decoder (`src/snolog_parser.py`),
* the chunked file decoder loop of `parse_hex_file`,
* the pacing and trigger logic of the acquisition loops
  (`src/manual_data_capture.py`, `src/rs232_data_capture.py`),
* the flag-splitting logic of `src/add_health_flags_to_csv.py`.

Bytes are modelled as `Nat` values; signed integer fields decode to `Int`
via two's complement; IEEE-754 float32 fields are decoded to their raw
little-endian 32-bit pattern (a `Nat`), which is a bit-exact representation
(pattern 0 is the float `0.0`). Python functions that raise on bad input
are modelled as `Option`-valued functions.
-/

namespace Snodar

/-! ## Health flag decoder (`src/snodar_live_health.py`)

`SnodarLiveHealthFlags` mirrors the named tuple of the source, with its
field order; each field is a `Bool` (the source stores Python `True`/`False`).
-/

structure SnodarLiveHealthFlags where
  lidar_count_ok : Bool
  lidar_time_ok : Bool
  lidar_registers_ok : Bool
  rtc_read_ok : Bool
  rtc_time_increased : Bool
  ina_voltage_ok : Bool
  ina_current_ok : Bool
  nrf_temperature_ok : Bool
  tmp1075_temperature_ok : Bool
  lidar_pcb_temperature_ok : Bool
  lidar_soc_temperature_ok : Bool
  imu_ready : Bool
  imu_quaternion_ok : Bool
deriving DecidableEq, Repr

/-- Embedding of `parse_flags(health_flags_high, health_flags_low)`.
Python's `True if x & MASK else False` becomes `x &&& MASK != 0`. -/
def parse_flags (health_flags_high health_flags_low : Nat) : SnodarLiveHealthFlags :=
  -- Low-byte flag bitmasks
  let IMU_READY := 1 <<< 0
  let INA_V_ROK := 1 <<< 1
  let INA_A_ROK := 1 <<< 2
  let NRF_ROK := 1 <<< 3
  let TMP_ROK := 1 <<< 4
  let LDR_PCB_ROK := 1 <<< 5
  let LDR_SOC_ROK := 1 <<< 6
  let IMU_DOK := 1 <<< 7
  -- High-byte flag bitmasks
  let RTC_ROK := 1 <<< 0
  let RTC_TOK := 1 <<< 1
  let LIDAR_CNT_OK := 1 <<< 2
  let LIDAR_TOK := 1 <<< 3
  let LIDAR_REG_OK := 1 <<< 4
  { lidar_count_ok := health_flags_high &&& LIDAR_CNT_OK != 0
    lidar_time_ok := health_flags_high &&& LIDAR_TOK != 0
    lidar_registers_ok := health_flags_high &&& LIDAR_REG_OK != 0
    rtc_read_ok := health_flags_high &&& RTC_ROK != 0
    rtc_time_increased := health_flags_high &&& RTC_TOK != 0
    ina_voltage_ok := health_flags_low &&& INA_V_ROK != 0
    ina_current_ok := health_flags_low &&& INA_A_ROK != 0
    nrf_temperature_ok := health_flags_low &&& NRF_ROK != 0
    tmp1075_temperature_ok := health_flags_low &&& TMP_ROK != 0
    lidar_pcb_temperature_ok := health_flags_low &&& LDR_PCB_ROK != 0
    lidar_soc_temperature_ok := health_flags_low &&& LDR_SOC_ROK != 0
    imu_ready := health_flags_low &&& IMU_READY != 0
    imu_quaternion_ok := health_flags_low &&& IMU_DOK != 0 }

/-! ### Bit-level helper lemmas -/

/-- The mask test used throughout `parse_flags` is exactly `Nat.testBit`. -/
theorem mask_test_eq_testBit (x k : Nat) : (x &&& (1 <<< k) != 0) = x.testBit k := by
  have h1 : (1 : Nat) <<< k = 2 ^ k := by
    rw [Nat.shiftLeft_eq, one_mul]
  rw [h1, Nat.and_two_pow]
  cases h : x.testBit k <;> simp [h]

/-- Flipping bit `j` of `x` does not change the mask test at bit `k ≠ j`. -/
theorem mask_test_xor_ne (x j k : Nat) (hjk : j ≠ k) :
    ((x ^^^ (1 <<< j)) &&& (1 <<< k) != 0) = (x &&& (1 <<< k) != 0) := by
  rw [mask_test_eq_testBit, mask_test_eq_testBit]
  have h1 : (1 : Nat) <<< j = 2 ^ j := by rw [Nat.shiftLeft_eq, one_mul]
  rw [h1, Nat.testBit_xor, Nat.testBit_two_pow]
  simp [hjk]

/-- Flipping bit `k` of `x` negates the mask test at bit `k`. -/
theorem mask_test_xor_self (x k : Nat) :
    ((x ^^^ (1 <<< k)) &&& (1 <<< k) != 0) = !(x &&& (1 <<< k) != 0) := by
  rw [mask_test_eq_testBit, mask_test_eq_testBit]
  have h1 : (1 : Nat) <<< k = 2 ^ k := by rw [Nat.shiftLeft_eq, one_mul]
  rw [h1, Nat.testBit_xor, Nat.testBit_two_pow]
  simp

/-- C1: for every byte pair, `parse_flags` maps each of the 13 fields to
exactly the specified bit of the high or low byte: high bits 0–4 are
`rtc_read_ok`, `rtc_time_increased`, `lidar_count_ok`, `lidar_time_ok`,
`lidar_registers_ok`; low bits 0–7 are `imu_ready`, `ina_voltage_ok`,
`ina_current_ok`, `nrf_temperature_ok`, `tmp1075_temperature_ok`,
`lidar_pcb_temperature_ok`, `lidar_soc_temperature_ok`, `imu_quaternion_ok`.
The function is a total Lean function, so it never fails on this domain. -/
theorem parse_flags_bit_assignment (high low : Nat) (hh : high < 256) (hl : low < 256) :
    (parse_flags high low).rtc_read_ok = high.testBit 0 ∧
    (parse_flags high low).rtc_time_increased = high.testBit 1 ∧
    (parse_flags high low).lidar_count_ok = high.testBit 2 ∧
    (parse_flags high low).lidar_time_ok = high.testBit 3 ∧
    (parse_flags high low).lidar_registers_ok = high.testBit 4 ∧
    (parse_flags high low).imu_ready = low.testBit 0 ∧
    (parse_flags high low).ina_voltage_ok = low.testBit 1 ∧
    (parse_flags high low).ina_current_ok = low.testBit 2 ∧
    (parse_flags high low).nrf_temperature_ok = low.testBit 3 ∧
    (parse_flags high low).tmp1075_temperature_ok = low.testBit 4 ∧
    (parse_flags high low).lidar_pcb_temperature_ok = low.testBit 5 ∧
    (parse_flags high low).lidar_soc_temperature_ok = low.testBit 6 ∧
    (parse_flags high low).imu_quaternion_ok = low.testBit 7 := by
  refine ⟨?_, ?_, ?_, ?_, ?_, ?_, ?_, ?_, ?_, ?_, ?_, ?_, ?_⟩ <;>
    exact mask_test_eq_testBit _ _

/-- Witness for C1 at `high = 21`, `low = 130`. -/
theorem parse_flags_bit_assignment_witness :
    (parse_flags 21 130).rtc_read_ok = (21 : Nat).testBit 0 ∧
    (parse_flags 21 130).imu_quaternion_ok = (130 : Nat).testBit 7 := by
  have h := parse_flags_bit_assignment 21 130 (by decide) (by decide)
  exact ⟨h.1, h.2.2.2.2.2.2.2.2.2.2.2.2⟩

/-- Flipping bit `j` of `x` toggles the mask test at bit `k` exactly when `j = k`. -/
theorem mask_test_xor (x j k : Nat) :
    ((x ^^^ (1 <<< j)) &&& (1 <<< k) != 0) = (decide (j = k) ^^ (x &&& (1 <<< k) != 0)) := by
  by_cases h : j = k
  · subst h
    rw [mask_test_xor_self]
    simp
  · rw [mask_test_xor_ne x j k h]
    simp [h]

/-- C3: `parse_flags` is a pure Lean function (hence deterministic), and each
of its 13 fields depends on exactly one bit of the two input bytes: flipping
bit `j` of the byte carrying the field toggles the field exactly when `j` is
the field's assigned bit (so flipping any other bit of that byte leaves it
unchanged), and flipping any bit of the other byte leaves it unchanged. -/
theorem parse_flags_single_bit_dependence (high low j : Nat)
    (hh : high < 256) (hl : low < 256) (hj : j < 8) :
    ((parse_flags (high ^^^ (1 <<< j)) low).rtc_read_ok
      = (decide (j = 0) ^^ (parse_flags high low).rtc_read_ok)) ∧
    ((parse_flags high (low ^^^ (1 <<< j))).rtc_read_ok
      = (parse_flags high low).rtc_read_ok) ∧
    ((parse_flags (high ^^^ (1 <<< j)) low).rtc_time_increased
      = (decide (j = 1) ^^ (parse_flags high low).rtc_time_increased)) ∧
    ((parse_flags high (low ^^^ (1 <<< j))).rtc_time_increased
      = (parse_flags high low).rtc_time_increased) ∧
    ((parse_flags (high ^^^ (1 <<< j)) low).lidar_count_ok
      = (decide (j = 2) ^^ (parse_flags high low).lidar_count_ok)) ∧
    ((parse_flags high (low ^^^ (1 <<< j))).lidar_count_ok
      = (parse_flags high low).lidar_count_ok) ∧
    ((parse_flags (high ^^^ (1 <<< j)) low).lidar_time_ok
      = (decide (j = 3) ^^ (parse_flags high low).lidar_time_ok)) ∧
    ((parse_flags high (low ^^^ (1 <<< j))).lidar_time_ok
      = (parse_flags high low).lidar_time_ok) ∧
    ((parse_flags (high ^^^ (1 <<< j)) low).lidar_registers_ok
      = (decide (j = 4) ^^ (parse_flags high low).lidar_registers_ok)) ∧
    ((parse_flags high (low ^^^ (1 <<< j))).lidar_registers_ok
      = (parse_flags high low).lidar_registers_ok) ∧
    ((parse_flags high (low ^^^ (1 <<< j))).imu_ready
      = (decide (j = 0) ^^ (parse_flags high low).imu_ready)) ∧
    ((parse_flags (high ^^^ (1 <<< j)) low).imu_ready
      = (parse_flags high low).imu_ready) ∧
    ((parse_flags high (low ^^^ (1 <<< j))).ina_voltage_ok
      = (decide (j = 1) ^^ (parse_flags high low).ina_voltage_ok)) ∧
    ((parse_flags (high ^^^ (1 <<< j)) low).ina_voltage_ok
      = (parse_flags high low).ina_voltage_ok) ∧
    ((parse_flags high (low ^^^ (1 <<< j))).ina_current_ok
      = (decide (j = 2) ^^ (parse_flags high low).ina_current_ok)) ∧
    ((parse_flags (high ^^^ (1 <<< j)) low).ina_current_ok
      = (parse_flags high low).ina_current_ok) ∧
    ((parse_flags high (low ^^^ (1 <<< j))).nrf_temperature_ok
      = (decide (j = 3) ^^ (parse_flags high low).nrf_temperature_ok)) ∧
    ((parse_flags (high ^^^ (1 <<< j)) low).nrf_temperature_ok
      = (parse_flags high low).nrf_temperature_ok) ∧
    ((parse_flags high (low ^^^ (1 <<< j))).tmp1075_temperature_ok
      = (decide (j = 4) ^^ (parse_flags high low).tmp1075_temperature_ok)) ∧
    ((parse_flags (high ^^^ (1 <<< j)) low).tmp1075_temperature_ok
      = (parse_flags high low).tmp1075_temperature_ok) ∧
    ((parse_flags high (low ^^^ (1 <<< j))).lidar_pcb_temperature_ok
      = (decide (j = 5) ^^ (parse_flags high low).lidar_pcb_temperature_ok)) ∧
    ((parse_flags (high ^^^ (1 <<< j)) low).lidar_pcb_temperature_ok
      = (parse_flags high low).lidar_pcb_temperature_ok) ∧
    ((parse_flags high (low ^^^ (1 <<< j))).lidar_soc_temperature_ok
      = (decide (j = 6) ^^ (parse_flags high low).lidar_soc_temperature_ok)) ∧
    ((parse_flags (high ^^^ (1 <<< j)) low).lidar_soc_temperature_ok
      = (parse_flags high low).lidar_soc_temperature_ok) ∧
    ((parse_flags high (low ^^^ (1 <<< j))).imu_quaternion_ok
      = (decide (j = 7) ^^ (parse_flags high low).imu_quaternion_ok)) ∧
    ((parse_flags (high ^^^ (1 <<< j)) low).imu_quaternion_ok
      = (parse_flags high low).imu_quaternion_ok) := by
  refine ⟨?_, rfl, ?_, rfl, ?_, rfl, ?_, rfl, ?_, rfl, ?_, rfl, ?_, rfl, ?_, rfl,
    ?_, rfl, ?_, rfl, ?_, rfl, ?_, rfl, ?_, rfl⟩ <;>
    exact mask_test_xor _ _ _

/-- Witness for C3 at `high = 21`, `low = 130`, flipped bit `j = 3`. -/
theorem parse_flags_single_bit_dependence_witness :
    (parse_flags (21 ^^^ (1 <<< 3)) 130).rtc_read_ok
      = (decide ((3 : Nat) = 0) ^^ (parse_flags 21 130).rtc_read_ok) ∧
    (parse_flags 21 (130 ^^^ (1 <<< 3))).imu_quaternion_ok
      = (decide ((3 : Nat) = 7) ^^ (parse_flags 21 130).imu_quaternion_ok) := by
  have h := parse_flags_single_bit_dependence 21 130 3 (by decide) (by decide) (by decide)
  exact ⟨h.1, h.2.2.2.2.2.2.2.2.2.2.2.2.2.2.2.2.2.2.2.2.2.2.2.2.1⟩

/-! ### Health audit (`check_flags`) -/

/-- Embedding of `check_flags(live_health)`: the list of warning messages
issued via `warnings.warn`, in the order of the source's `if` statements.
Each `if not flag: warnings.warn(msg)` contributes `msg` when the flag is
false, nothing when it is true. -/
def check_flags (live_health : SnodarLiveHealthFlags) : List String :=
  (if !live_health.lidar_count_ok then ["lidar measurement count was not ok"] else []) ++
  (if !live_health.lidar_time_ok then ["lidar timeout occurred!"] else []) ++
  (if !live_health.lidar_registers_ok then ["lidar registers were not ok"] else []) ++
  (if !live_health.rtc_read_ok then ["RTC read was not ok"] else []) ++
  (if !live_health.rtc_time_increased then ["RTC time didn't increase"] else []) ++
  (if !live_health.ina_voltage_ok then ["INA voltage read was not ok"] else []) ++
  (if !live_health.ina_current_ok then ["INA current read was not ok"] else []) ++
  (if !live_health.nrf_temperature_ok then ["nRF temperature read was not ok"] else []) ++
  (if !live_health.tmp1075_temperature_ok then ["TMP1075 temperature read was not ok"] else []) ++
  (if !live_health.lidar_pcb_temperature_ok then ["lidar pcb temperature read was not ok"] else []) ++
  (if !live_health.lidar_soc_temperature_ok then ["lidar SoC temperature read was not ok"] else []) ++
  (if !live_health.imu_ready then ["IMU data was not ready"] else []) ++
  (if !live_health.imu_quaternion_ok then ["IMU quaternion was not ok"] else [])

/-- The 13 health fields paired with their warning messages and current
values, in the declaration order of the `SnodarLiveHealthFlags` named tuple
(which is also the order of the `if` statements in `check_flags`). -/
def healthFieldStatus (f : SnodarLiveHealthFlags) : List (String × Bool) :=
  [("lidar measurement count was not ok", f.lidar_count_ok),
   ("lidar timeout occurred!", f.lidar_time_ok),
   ("lidar registers were not ok", f.lidar_registers_ok),
   ("RTC read was not ok", f.rtc_read_ok),
   ("RTC time didn't increase", f.rtc_time_increased),
   ("INA voltage read was not ok", f.ina_voltage_ok),
   ("INA current read was not ok", f.ina_current_ok),
   ("nRF temperature read was not ok", f.nrf_temperature_ok),
   ("TMP1075 temperature read was not ok", f.tmp1075_temperature_ok),
   ("lidar pcb temperature read was not ok", f.lidar_pcb_temperature_ok),
   ("lidar SoC temperature read was not ok", f.lidar_soc_temperature_ok),
   ("IMU data was not ready", f.imu_ready),
   ("IMU quaternion was not ok", f.imu_quaternion_ok)]

/-- The audit order that §4.1 of the specification asserts (the
bit-assignment table order), stated as the corresponding warning messages.
This follows the spec's words, for comparison against `check_flags`;
the source's order is the named-tuple declaration order instead. -/
def audit_order_spec41 : List String :=
  ["RTC read was not ok",
   "RTC time didn't increase",
   "lidar measurement count was not ok",
   "lidar timeout occurred!",
   "lidar registers were not ok",
   "IMU data was not ready",
   "INA voltage read was not ok",
   "INA current read was not ok",
   "nRF temperature read was not ok",
   "TMP1075 temperature read was not ok",
   "lidar pcb temperature read was not ok",
   "lidar SoC temperature read was not ok",
   "IMU quaternion was not ok"]

/-- The all-false health flags value. -/
def allFalseHealthFlags : SnodarLiveHealthFlags :=
  ⟨false, false, false, false, false, false, false,
   false, false, false, false, false, false⟩

/-- C7 counterexample: on the all-false flags, `check_flags` warns about
every field, but its first warning is the `lidar_count_ok` one, not the
`rtc_read_ok` one that the §4.1 bit-table order would put first; the emitted
sequence differs from the order the claim asserts. -/
theorem check_flags_spec41_order_false :
    (check_flags allFalseHealthFlags).head? = some "lidar measurement count was not ok" ∧
    audit_order_spec41.head? = some "RTC read was not ok" ∧
    check_flags allFalseHealthFlags ≠ audit_order_spec41 := by
  refine ⟨rfl, rfl, ?_⟩
  decide

/-- C7 amended: `check_flags` emits exactly one warning per false field and
none per true field, in the named-tuple declaration order (`lidar_count_ok`,
`lidar_time_ok`, `lidar_registers_ok`, `rtc_read_ok`, `rtc_time_increased`,
`ina_voltage_ok`, `ina_current_ok`, `nrf_temperature_ok`,
`tmp1075_temperature_ok`, `lidar_pcb_temperature_ok`,
`lidar_soc_temperature_ok`, `imu_ready`, `imu_quaternion_ok`); it is a total
function (never raises), and on all-true flags it emits nothing. -/
theorem check_flags_audit (f : SnodarLiveHealthFlags) :
    check_flags f = ((healthFieldStatus f).filter (fun p => !p.2)).map Prod.fst ∧
    (check_flags f).length = ((healthFieldStatus f).filter (fun p => !p.2)).length ∧
    check_flags ⟨true, true, true, true, true, true, true,
      true, true, true, true, true, true⟩ = [] := by
  have seg : ∀ (v : Bool) (m : String) (rest : List (String × Bool)),
      ((((m, v) :: rest).filter (fun p => !p.2)).map Prod.fst)
        = (if !v then [m] else []) ++ ((rest.filter (fun p => !p.2)).map Prod.fst) := by
    intro v m rest
    cases v <;> simp [List.filter_cons]
  have h1 : check_flags f = ((healthFieldStatus f).filter (fun p => !p.2)).map Prod.fst := by
    simp only [healthFieldStatus, seg, List.filter_nil, List.map_nil, List.append_nil,
      check_flags]
    simp [List.append_assoc]
  exact ⟨h1, by rw [h1, List.length_map], rfl⟩

/-! ## Snolog binary decoder (`src/snolog_parser.py`)

`parse_raw_snolog` embeds `struct.unpack` with the format string
`"=BBHLhhfffffffffBBbbfffHBbfffffflflflflfBBBB"`: standard sizes, no
padding, little-endian byte order, total size 128 bytes; `struct.unpack`
raises `struct.error` unless the buffer length equals the format size,
modelled here by returning `none`.  Unsigned fields (`B`, `H`, `L`) decode
to `Nat`; signed fields (`b`, `h`, `l`) decode to `Int` via two's
complement; `f` (IEEE-754 float32) fields decode to their raw 32-bit
little-endian pattern as a `Nat` (bit-exact; pattern 0 is `0.0`). -/

/-- Read the byte at offset `i` (in range whenever the 128-byte length
check has passed). -/
def byteAt (bs : List Nat) (i : Nat) : Nat := bs.getD i 0

/-- Little-endian 16-bit unsigned read at offset `i` (format `H`). -/
def readU16 (bs : List Nat) (i : Nat) : Nat :=
  byteAt bs i + 256 * byteAt bs (i + 1)

/-- Little-endian 32-bit unsigned read at offset `i` (formats `L` and the
raw pattern of `f`). -/
def readU32 (bs : List Nat) (i : Nat) : Nat :=
  byteAt bs i + 256 * byteAt bs (i + 1) + 65536 * byteAt bs (i + 2) +
    16777216 * byteAt bs (i + 3)

/-- Two's-complement 8-bit signed read at offset `i` (format `b`). -/
def readI8 (bs : List Nat) (i : Nat) : Int :=
  let u := byteAt bs i
  if u < 128 then (u : Int) else (u : Int) - 256

/-- Two's-complement 16-bit signed read at offset `i` (format `h`). -/
def readI16 (bs : List Nat) (i : Nat) : Int :=
  let u := readU16 bs i
  if u < 32768 then (u : Int) else (u : Int) - 65536

/-- Two's-complement 32-bit signed read at offset `i` (format `l`). -/
def readI32 (bs : List Nat) (i : Nat) : Int :=
  let u := readU32 bs i
  if u < 2147483648 then (u : Int) else (u : Int) - 4294967296

/-- The `Snolog` named tuple: 43 fields in the order of the source class.
Fields commented `f32` hold the raw little-endian IEEE-754 bit pattern. -/
structure Snolog where
  id : Nat                      -- uint8
  version : Nat                 -- uint8
  length : Nat                  -- uint16
  unix_time : Nat               -- uint32
  power_mA : Int                -- int16
  power_V : Int                 -- int16
  pcb_temperature : Nat         -- f32 bits
  imu_temperature : Nat         -- f32 bits
  imu_quaternian0 : Nat         -- f32 bits
  imu_quaternian1 : Nat         -- f32 bits
  imu_quaternian2 : Nat         -- f32 bits
  imu_quaternian3 : Nat         -- f32 bits
  imu_roll : Nat                -- f32 bits
  imu_pitch : Nat               -- f32 bits
  imu_yaw : Nat                 -- f32 bits
  imu_flag : Nat                -- uint8
  heater_enable : Nat           -- uint8
  lidar_soc_temperature : Int   -- int8
  lidar_pcb_temperature : Int   -- int8
  lidar_raw_distance : Nat      -- f32 bits
  lidar_doff_distance : Nat     -- f32 bits
  lidar_tc_distance : Nat       -- f32 bits
  lidar_meas_time : Nat         -- uint16
  lidar_status : Nat            -- uint8
  nrf_temperature : Int         -- int8
  outside_temperature : Nat     -- f32 bits
  seasonal_snow_depth : Nat     -- f32 bits
  seasonsal_snow_fall : Nat     -- f32 bits
  new_snow_fall : Nat           -- f32 bits
  doy_swe : Nat                 -- f32 bits
  temp_swe : Nat                -- f32 bits
  sc_daily_max_time : Int       -- int32
  sc_daily_max_depth : Nat      -- f32 bits
  sc_daily_min_time : Int       -- int32
  sc_daily_min_depth : Nat      -- f32 bits
  sc_abs_min_time : Int         -- int32
  sc_abs_min_depth : Nat        -- f32 bits
  sc_min_max_cntr : Int         -- int32
  sc_daily_acc_sf : Nat         -- f32 bits
  health_flags_lo : Nat         -- uint8
  health_flag_hi : Nat          -- uint8
  reserved : Nat                -- uint8
  checksum : Nat                -- uint8
deriving DecidableEq, Repr

/-- The `_fields` tuple of the `Snolog` named tuple, in declaration order.
These names are also the CSV header written by `create_snolog_csv`. -/
def snologFields : List String :=
  ["id", "version", "length", "unix_time", "power_mA", "power_V",
   "pcb_temperature", "imu_temperature",
   "imu_quaternian0", "imu_quaternian1", "imu_quaternian2", "imu_quaternian3",
   "imu_roll", "imu_pitch", "imu_yaw",
   "imu_flag", "heater_enable", "lidar_soc_temperature", "lidar_pcb_temperature",
   "lidar_raw_distance", "lidar_doff_distance", "lidar_tc_distance",
   "lidar_meas_time", "lidar_status", "nrf_temperature",
   "outside_temperature", "seasonal_snow_depth", "seasonsal_snow_fall",
   "new_snow_fall", "doy_swe", "temp_swe",
   "sc_daily_max_time", "sc_daily_max_depth", "sc_daily_min_time",
   "sc_daily_min_depth", "sc_abs_min_time", "sc_abs_min_depth",
   "sc_min_max_cntr", "sc_daily_acc_sf",
   "health_flags_lo", "health_flag_hi", "reserved", "checksum"]

/-- Field extraction at the fixed byte offsets of the 128-byte layout. -/
def unpackSnolog (bs : List Nat) : Snolog where
  id := byteAt bs 0
  version := byteAt bs 1
  length := readU16 bs 2
  unix_time := readU32 bs 4
  power_mA := readI16 bs 8
  power_V := readI16 bs 10
  pcb_temperature := readU32 bs 12
  imu_temperature := readU32 bs 16
  imu_quaternian0 := readU32 bs 20
  imu_quaternian1 := readU32 bs 24
  imu_quaternian2 := readU32 bs 28
  imu_quaternian3 := readU32 bs 32
  imu_roll := readU32 bs 36
  imu_pitch := readU32 bs 40
  imu_yaw := readU32 bs 44
  imu_flag := byteAt bs 48
  heater_enable := byteAt bs 49
  lidar_soc_temperature := readI8 bs 50
  lidar_pcb_temperature := readI8 bs 51
  lidar_raw_distance := readU32 bs 52
  lidar_doff_distance := readU32 bs 56
  lidar_tc_distance := readU32 bs 60
  lidar_meas_time := readU16 bs 64
  lidar_status := byteAt bs 66
  nrf_temperature := readI8 bs 67
  outside_temperature := readU32 bs 68
  seasonal_snow_depth := readU32 bs 72
  seasonsal_snow_fall := readU32 bs 76
  new_snow_fall := readU32 bs 80
  doy_swe := readU32 bs 84
  temp_swe := readU32 bs 88
  sc_daily_max_time := readI32 bs 92
  sc_daily_max_depth := readU32 bs 96
  sc_daily_min_time := readI32 bs 100
  sc_daily_min_depth := readU32 bs 104
  sc_abs_min_time := readI32 bs 108
  sc_abs_min_depth := readU32 bs 112
  sc_min_max_cntr := readI32 bs 116
  sc_daily_acc_sf := readU32 bs 120
  health_flags_lo := byteAt bs 124
  health_flag_hi := byteAt bs 125
  reserved := byteAt bs 126
  checksum := byteAt bs 127

/-- Embedding of `parse_raw_snolog(raw_bytes)`: `struct.unpack` fails
(raises `struct.error`) unless the buffer is exactly 128 bytes; on success
all 43 fields are produced at once from the fixed layout. -/
def parse_raw_snolog (raw_bytes : List Nat) : Option Snolog :=
  if raw_bytes.length = 128 then some (unpackSnolog raw_bytes) else none

/-- C2 counterexample: the `Snolog` record has 43 fields, not the 41 the
claim states. -/
theorem snolog_field_count_not_41 :
    snologFields.length = 43 ∧ snologFields.length ≠ 41 := by
  decide

/-- C2 amended: `parse_raw_snolog` succeeds exactly on buffers of length
128 — on any other length it fails (the `struct.error` the caller sees as a
malformed packet), and on length 128 it returns a record whose 43 fields
are all populated (a `Snolog` value always carries all 43 fields, so no
partially-populated record can be produced). -/
theorem parse_raw_snolog_length (raw_bytes : List Nat) :
    ((parse_raw_snolog raw_bytes).isSome ↔ raw_bytes.length = 128) ∧
    (parse_raw_snolog raw_bytes = if raw_bytes.length = 128 then
      some (unpackSnolog raw_bytes) else none) ∧
    snologFields.length = 43 := by
  refine ⟨?_, rfl, by decide⟩
  unfold parse_raw_snolog
  by_cases h : raw_bytes.length = 128 <;> simp [h]

/-! ### End-to-end decode scenario -/

/-- The 128-byte scenario buffer: `id=1`, `version=2`, `length=128`
(little-endian `128, 0` at offsets 2–3), `unix_time=1700000000`
(little-endian `0x00 0xF1 0x53 0x65` at offsets 4–7), every other field
zero except `health_flags_lo = 0b00000001` at offset 124. -/
def scenarioBuffer : List Nat :=
  [1, 2, 128, 0, 0, 241, 83, 101] ++ List.replicate 116 0 ++ [1, 0, 0, 0]

set_option maxRecDepth 8000

/-- C4: decoding the scenario buffer yields exactly the literal record
(`id=1`, `version=2`, `length=128`, `unix_time=1700000000`, all float
fields with bit pattern 0, i.e. `0.0`, `health_flags_lo=1`, everything else
0), and `parse_flags 0 1` sets `imu_ready` and no other field. -/
theorem scenario_decode :
    parse_raw_snolog scenarioBuffer = some
      { id := 1, version := 2, length := 128, unix_time := 1700000000,
        power_mA := 0, power_V := 0, pcb_temperature := 0, imu_temperature := 0,
        imu_quaternian0 := 0, imu_quaternian1 := 0, imu_quaternian2 := 0,
        imu_quaternian3 := 0, imu_roll := 0, imu_pitch := 0, imu_yaw := 0,
        imu_flag := 0, heater_enable := 0, lidar_soc_temperature := 0,
        lidar_pcb_temperature := 0, lidar_raw_distance := 0,
        lidar_doff_distance := 0, lidar_tc_distance := 0, lidar_meas_time := 0,
        lidar_status := 0, nrf_temperature := 0, outside_temperature := 0,
        seasonal_snow_depth := 0, seasonsal_snow_fall := 0, new_snow_fall := 0,
        doy_swe := 0, temp_swe := 0, sc_daily_max_time := 0,
        sc_daily_max_depth := 0, sc_daily_min_time := 0, sc_daily_min_depth := 0,
        sc_abs_min_time := 0, sc_abs_min_depth := 0, sc_min_max_cntr := 0,
        sc_daily_acc_sf := 0, health_flags_lo := 1, health_flag_hi := 0,
        reserved := 0, checksum := 0 } ∧
    parse_flags 0 1 =
      { lidar_count_ok := false, lidar_time_ok := false,
        lidar_registers_ok := false, rtc_read_ok := false,
        rtc_time_increased := false, ina_voltage_ok := false,
        ina_current_ok := false, nrf_temperature_ok := false,
        tmp1075_temperature_ok := false, lidar_pcb_temperature_ok := false,
        lidar_soc_temperature_ok := false, imu_ready := true,
        imu_quaternion_ok := false } := by
  exact ⟨rfl, rfl⟩

/-! ### Chunked decode loop of `parse_hex_file`

The read loop of `parse_hex_file`: `hex_file.read(SNOLOG_SIZE)` returns the
next 128 bytes of the remaining input, or fewer at end of file; a full
chunk is parsed and collected, a short chunk ends the loop with no error
and the partial data dropped.  `parse_hex_entries` is that loop as a
function of the file contents. -/

def parse_hex_entries (bs : List Nat) : List Snolog :=
  if h : (bs.take 128).length = 128 then
    match parse_raw_snolog (bs.take 128) with
    | some snolog => snolog :: parse_hex_entries (bs.drop 128)
    | none => []
  else []
termination_by bs.length
decreasing_by
  simp only [List.length_take] at h
  simp only [List.length_drop]
  omega

theorem parse_hex_entries_nil (bs : List Nat) (h : bs.length < 128) :
    parse_hex_entries bs = [] := by
  have ht : ¬((bs.take 128).length = 128) := by
    simp only [List.length_take]
    omega
  rw [parse_hex_entries, dif_neg ht]

theorem parse_hex_entries_cons (bs : List Nat) (h : 128 ≤ bs.length) :
    parse_hex_entries bs = unpackSnolog (bs.take 128) :: parse_hex_entries (bs.drop 128) := by
  have ht : (bs.take 128).length = 128 := by
    simp only [List.length_take]
    omega
  have hp : parse_raw_snolog (bs.take 128) = some (unpackSnolog (bs.take 128)) := by
    unfold parse_raw_snolog
    simp [ht]
  rw [parse_hex_entries, dif_pos ht, hp]

theorem parse_hex_entries_length_aux (n : Nat) :
    ∀ bs : List Nat, bs.length ≤ n → (parse_hex_entries bs).length = bs.length / 128 := by
  induction n with
  | zero =>
    intro bs hb
    rw [parse_hex_entries_nil bs (by omega)]
    have : bs.length = 0 := by omega
    simp [this]
  | succ n ih =>
    intro bs hb
    by_cases h : bs.length < 128
    · rw [parse_hex_entries_nil bs h]
      simp [Nat.div_eq_of_lt h]
    · push_neg at h
      rw [parse_hex_entries_cons bs h]
      have hd : (bs.drop 128).length = bs.length - 128 := by
        simp [List.length_drop]
      have hrec := ih (bs.drop 128) (by omega)
      rw [List.length_cons, hrec, hd]
      rw [Nat.div_eq_sub_div (by norm_num) h]

theorem parse_hex_entries_get_aux (n : Nat) :
    ∀ bs : List Nat, bs.length ≤ n → ∀ k, k < bs.length / 128 →
      (parse_hex_entries bs)[k]? = parse_raw_snolog ((bs.drop (128 * k)).take 128) := by
  induction n with
  | zero =>
    intro bs hb k hk
    have : bs.length = 0 := by omega
    rw [this] at hk
    simp at hk
  | succ n ih =>
    intro bs hb k hk
    by_cases h : bs.length < 128
    · rw [Nat.div_eq_of_lt h] at hk
      omega
    · push_neg at h
      rw [parse_hex_entries_cons bs h]
      have hd : (bs.drop 128).length = bs.length - 128 := by
        simp [List.length_drop]
      match k with
      | 0 =>
        simp only [Nat.mul_zero, List.drop_zero, List.getElem?_cons_zero]
        have hchunk : (bs.take 128).length = 128 := by
          simp only [List.length_take]
          omega
        rw [parse_raw_snolog, if_pos hchunk]
      | k + 1 =>
        have hdiv : bs.length / 128 = (bs.length - 128) / 128 + 1 := by
          rw [Nat.div_eq_sub_div (by norm_num) h]
        have hk' : k < (bs.drop 128).length / 128 := by
          rw [hd]
          omega
        have hrec := ih (bs.drop 128) (by omega) k hk'
        rw [List.getElem?_cons_succ, hrec, List.drop_drop]
        have he : 128 + 128 * k = 128 * (k + 1) := by ring
        rw [he]

/-- C5: the chunked loop of `parse_hex_file` decodes exactly
`⌊length / 128⌋` records, in input order, the `k`-th being
`parse_raw_snolog` applied to the `k`-th consecutive 128-byte chunk; it is
a total function, so the trailing partial chunk (1 to 127 bytes) is dropped
silently with no error. -/
theorem parse_hex_entries_chunks (bs : List Nat) :
    (parse_hex_entries bs).length = bs.length / 128 ∧
    ∀ k, k < bs.length / 128 →
      (parse_hex_entries bs)[k]? = parse_raw_snolog ((bs.drop (128 * k)).take 128) := by
  exact ⟨parse_hex_entries_length_aux bs.length bs le_rfl,
    parse_hex_entries_get_aux bs.length bs le_rfl⟩

/-- Witness for C5 on a concrete 130-byte input (the scenario buffer plus a
2-byte partial chunk): exactly one record is decoded, it is the decode of
the first 128 bytes, and the partial chunk is dropped. -/
theorem parse_hex_entries_chunks_witness :
    (parse_hex_entries (scenarioBuffer ++ [7, 7])).length = 1 ∧
    (parse_hex_entries (scenarioBuffer ++ [7, 7]))[0]? =
      parse_raw_snolog (((scenarioBuffer ++ [7, 7]).drop 0).take 128) := by
  have h := parse_hex_entries_chunks (scenarioBuffer ++ [7, 7])
  have hlen : (scenarioBuffer ++ [7, 7]).length = 130 := by
    simp [scenarioBuffer]
  constructor
  · rw [h.1, hlen]
  · have := h.2 0 (by rw [hlen]; norm_num)
    simpa using this

/-! ## Acquisition loop pacing (`lidar_control`)

Wall-clock durations are modelled as rationals.  Each definition gives the
duration the loop suspends at the end of one cycle (0 meaning it proceeds
immediately to the next trigger). -/

/-- `sleep_time = measurement_interval - read_delay - elapsed_time`, the
pacing expression computed in `manual_data_capture.lidar_control`. -/
def sleep_time (measurement_interval read_delay elapsed_time : ℚ) : ℚ :=
  measurement_interval - read_delay - elapsed_time

/-- End-of-cycle suspension of `manual_data_capture.lidar_control`:
`if sleep_time > 0: sleep(sleep_time) else: pass`. -/
def manualCyclePause (measurement_interval read_delay elapsed_time : ℚ) : ℚ :=
  if sleep_time measurement_interval read_delay elapsed_time > 0 then
    sleep_time measurement_interval read_delay elapsed_time
  else 0

/-- End-of-cycle suspension of `rs232_data_capture.lidar_control`:
`sleep(measurement_interval - read_delay)`, unconditional, with no
elapsed-time term (the `elapsed_time` argument is never read, because that
loop never measures it). -/
def rs232CyclePause (measurement_interval read_delay elapsed_time : ℚ) : ℚ :=
  measurement_interval - read_delay

/-- The suspension the claim asserts for every acquisition loop, following
the spec's words: suspend for `sleep_time` when positive, not at all
otherwise.  Stated separately so the loops' embeddings can be compared
against it. -/
def claimedCyclePause (measurement_interval read_delay elapsed_time : ℚ) : ℚ :=
  if sleep_time measurement_interval read_delay elapsed_time > 0 then
    sleep_time measurement_interval read_delay elapsed_time
  else 0

/-- C6 counterexample: with `measurement_interval = 30`, `read_delay = 5`
and an elapsed time of 30 seconds since the trigger, the claim demands no
suspension (`sleep_time = -5 ≤ 0`), but `rs232_data_capture.lidar_control`
suspends for 25 seconds regardless of the elapsed time. -/
theorem rs232_pacing_counterexample :
    rs232CyclePause 30 5 30 = 25 ∧ claimedCyclePause 30 5 30 = 0 ∧
    rs232CyclePause 30 5 30 ≠ claimedCyclePause 30 5 30 := by
  refine ⟨by norm_num [rs232CyclePause], ?_, ?_⟩ <;>
    norm_num [rs232CyclePause, claimedCyclePause, sleep_time]

/-- C6 amended: `manual_data_capture.lidar_control` paces as the claim
states — it computes `sleep_time = measurement_interval - read_delay -
elapsed_time` and suspends exactly that long when positive, else proceeds
immediately with no suspension and no error; `rs232_data_capture`'s loop
instead always suspends for `measurement_interval - read_delay`, ignoring
the elapsed time. -/
theorem lidar_control_pacing (mi rd et : ℚ) :
    (sleep_time mi rd et > 0 → manualCyclePause mi rd et = mi - rd - et) ∧
    (sleep_time mi rd et ≤ 0 → manualCyclePause mi rd et = 0) ∧
    rs232CyclePause mi rd et = mi - rd := by
  refine ⟨fun h => ?_, fun h => ?_, rfl⟩
  · rw [manualCyclePause, if_pos h]
    rfl
  · rw [manualCyclePause, if_neg (by simpa using h)]

/-- Witness for C6 (amended): a 2-second decode+emit cost under
`measurement_interval = 30`, `read_delay = 5` sleeps 23 seconds; a
30-second cost sleeps not at all. -/
theorem lidar_control_pacing_witness :
    manualCyclePause 30 5 2 = 23 ∧ manualCyclePause 30 5 30 = 0 := by
  have h1 := (lidar_control_pacing 30 5 2).1 (by norm_num [sleep_time])
  have h2 := (lidar_control_pacing 30 5 30).2.1 (by norm_num [sleep_time])
  refine ⟨?_, h2⟩
  rw [h1]
  norm_num

/-! ## Trigger command -/

/-- `NUS_USA = "!USA\r".encode("utf-8")`: the 5 ASCII bytes of the trigger
command (`!`, `U`, `S`, `A`, carriage return). -/
def NUS_USA : List Nat := [33, 85, 83, 65, 13]

/-- Embedding of `trigger_lidar_conversion(serial_port)`: the token written
to the transport, and whether the `"something went wrong...?"` warning is
printed, as a function of the byte count the transport's `write` reports
(`nbytes != len(NUS_USA)`; in `rs232_data_capture.py` literally
`nbytes != 5`).  The function returns normally in either case. -/
def trigger_lidar_conversion (nbytes : Nat) : List Nat × Bool :=
  (NUS_USA, nbytes != NUS_USA.length)

/-- C9: every trigger writes exactly the 5 ASCII bytes of `"!USA\r"`, and
the warning fires precisely when the transport reports a byte count other
than 5; the warning path returns normally (the embedding is a total
function, mirroring the source, which only prints and continues). -/
theorem trigger_lidar_conversion_token (nbytes : Nat) :
    (trigger_lidar_conversion nbytes).1 = ("!USA\r".data.map Char.toNat) ∧
    (trigger_lidar_conversion nbytes).1.length = 5 ∧
    (trigger_lidar_conversion nbytes).2 = (nbytes != 5) := by
  exact ⟨rfl, rfl, rfl⟩

/-! ## The health-audit step of `manual_data_capture.lidar_control` -/

/-- C8 evidence: `manual_data_capture.lidar_control` evaluates
`snolog.health_flags_hi`, but the `Snolog` named tuple declares the field
as `health_flag_hi` — `"health_flags_hi"` is not among the record's fields,
so the attribute access raises `AttributeError` in the first cycle, before
the Emit step, and `serial_port.close()` (placed after the loop with no
`try`/`finally`) is never reached. -/
theorem manual_audit_attr_missing :
    "health_flags_hi" ∉ snologFields ∧
    "health_flags_lo" ∈ snologFields ∧
    "health_flag_hi" ∈ snologFields := by
  refine ⟨by decide, by decide, by decide⟩

/-! ## 16-bit packed flag splitting (`src/add_health_flags_to_csv.py`) -/

/-- `high_byte = (int(row["LIVE_HEALTH_FLAGS"], 16) & 0xff00) >> 8`. -/
def high_byte (v : Nat) : Nat := (v &&& 0xff00) >>> 8

/-- `low_byte = int(row["LIVE_HEALTH_FLAGS"], 16) & 0xff`. -/
def low_byte (v : Nat) : Nat := v &&& 0xff

theorem testBit_low_byte (v k : Nat) (hk : k < 8) :
    (low_byte v).testBit k = v.testBit k := by
  unfold low_byte
  rw [Nat.testBit_and]
  have h : (0xff : Nat).testBit k = true := by
    interval_cases k <;> decide
  simp [h]

theorem testBit_high_byte (v k : Nat) (hk : k < 8) :
    (high_byte v).testBit k = v.testBit (8 + k) := by
  unfold high_byte
  rw [Nat.testBit_shiftRight, Nat.testBit_and]
  have h : (0xff00 : Nat).testBit (8 + k) = true := by
    interval_cases k <;> decide
  simp [h]

theorem low_byte_eq_mod (v : Nat) : low_byte v = v % 256 := by
  have h : (0xff : Nat) = 2 ^ 8 - 1 := by norm_num
  rw [low_byte, h, Nat.and_pow_two_sub_one_eq_mod]

theorem high_byte_eq (v : Nat) : high_byte v = (v >>> 8) &&& 0xff := by
  apply Nat.eq_of_testBit_eq
  intro i
  simp only [high_byte, Nat.testBit_shiftRight, Nat.testBit_and]
  have h : (0xff00 : Nat) = 0xff <<< 8 := by decide
  rw [h, Nat.testBit_shiftLeft]
  simp

theorem high_byte_eq_div_mod (v : Nat) : high_byte v = v / 256 % 256 := by
  rw [high_byte_eq]
  have h : (0xff : Nat) = 2 ^ 8 - 1 := by norm_num
  rw [h, Nat.and_pow_two_sub_one_eq_mod, Nat.shiftRight_eq_div_pow]

/-- Splitting `hi * 256 + lo` with the CSV utility's masks recovers the two
byte columns. -/
theorem split_recompose : ∀ hi < 256, ∀ lo < 256,
    high_byte (hi * 256 + lo) = hi ∧ low_byte (hi * 256 + lo) = lo := by
  intro hi hhi lo hlo
  rw [high_byte_eq_div_mod, low_byte_eq_mod]
  omega

/-- C10: splitting a packed 16-bit flag word `v` with the CSV utility's
masks and decoding gives, for each field, exactly the assigned bit of `v`
(low-byte fields read bits 0–7, high-byte fields bits 8–12); and for a log
with separate `hi`/`lo` byte columns whose underlying packed value is the
same `v = hi * 256 + lo`, decoding the columns directly gives the identical
flags. -/
theorem split_flags_16bit (v : Nat) (hv : v < 65536) :
    ((parse_flags (high_byte v) (low_byte v)).rtc_read_ok = v.testBit 8 ∧
     (parse_flags (high_byte v) (low_byte v)).rtc_time_increased = v.testBit 9 ∧
     (parse_flags (high_byte v) (low_byte v)).lidar_count_ok = v.testBit 10 ∧
     (parse_flags (high_byte v) (low_byte v)).lidar_time_ok = v.testBit 11 ∧
     (parse_flags (high_byte v) (low_byte v)).lidar_registers_ok = v.testBit 12 ∧
     (parse_flags (high_byte v) (low_byte v)).imu_ready = v.testBit 0 ∧
     (parse_flags (high_byte v) (low_byte v)).ina_voltage_ok = v.testBit 1 ∧
     (parse_flags (high_byte v) (low_byte v)).ina_current_ok = v.testBit 2 ∧
     (parse_flags (high_byte v) (low_byte v)).nrf_temperature_ok = v.testBit 3 ∧
     (parse_flags (high_byte v) (low_byte v)).tmp1075_temperature_ok = v.testBit 4 ∧
     (parse_flags (high_byte v) (low_byte v)).lidar_pcb_temperature_ok = v.testBit 5 ∧
     (parse_flags (high_byte v) (low_byte v)).lidar_soc_temperature_ok = v.testBit 6 ∧
     (parse_flags (high_byte v) (low_byte v)).imu_quaternion_ok = v.testBit 7) ∧
    (∀ hi lo : Nat, hi < 256 → lo < 256 → hi * 256 + lo = v →
      parse_flags hi lo = parse_flags (high_byte v) (low_byte v)) := by
  constructor
  · exact ⟨(mask_test_eq_testBit _ _).trans (testBit_high_byte v 0 (by norm_num)),
      (mask_test_eq_testBit _ _).trans (testBit_high_byte v 1 (by norm_num)),
      (mask_test_eq_testBit _ _).trans (testBit_high_byte v 2 (by norm_num)),
      (mask_test_eq_testBit _ _).trans (testBit_high_byte v 3 (by norm_num)),
      (mask_test_eq_testBit _ _).trans (testBit_high_byte v 4 (by norm_num)),
      (mask_test_eq_testBit _ _).trans (testBit_low_byte v 0 (by norm_num)),
      (mask_test_eq_testBit _ _).trans (testBit_low_byte v 1 (by norm_num)),
      (mask_test_eq_testBit _ _).trans (testBit_low_byte v 2 (by norm_num)),
      (mask_test_eq_testBit _ _).trans (testBit_low_byte v 3 (by norm_num)),
      (mask_test_eq_testBit _ _).trans (testBit_low_byte v 4 (by norm_num)),
      (mask_test_eq_testBit _ _).trans (testBit_low_byte v 5 (by norm_num)),
      (mask_test_eq_testBit _ _).trans (testBit_low_byte v 6 (by norm_num)),
      (mask_test_eq_testBit _ _).trans (testBit_low_byte v 7 (by norm_num))⟩
  · intro hi lo hhi hlo hv'
    obtain ⟨h1, h2⟩ := split_recompose hi hhi lo hlo
    rw [← hv', h1, h2]

/-- Witness for C10 at `v = 0x1355` (`hi = 0x13`, `lo = 0x55`). -/
theorem split_flags_16bit_witness :
    (parse_flags (high_byte 0x1355) (low_byte 0x1355)).rtc_read_ok =
      (0x1355 : Nat).testBit 8 ∧
    parse_flags 0x13 0x55 = parse_flags (high_byte 0x1355) (low_byte 0x1355) := by
  have h := split_flags_16bit 0x1355 (by norm_num)
  exact ⟨h.1.1, h.2 0x13 0x55 (by norm_num) (by norm_num) (by norm_num)⟩

end Snodar
